import Mathlib

/-!
Verification of the dual-screen LVGL flush engine
(`apps/examples/dualscreen_lvgl/dualscreen_lvgl.c`).

The development shallowly embeds the region-splitting flush callback
(`dualscreen_flush_cb`), the simulated DMA executor (`dma_worker`), the
submission helper (`sim_dma_transfer_2d`), and the resource-acquisition
paths (`init_framebuffer`, `create_dualscreen_display`).  Pointers are
modelled as `Int` byte addresses, memory as functions `Int → Nat`
(address to byte value), and the C `uint32_t` fields as `Nat` values
reduced mod 2^32 where the C performs an int32→uint32 conversion.
-/

/-- `SCREEN_WIDTH` (source line 55): each physical screen is 960 px wide. -/
def SCREEN_WIDTH : Int := 960

/-- `SCREEN_HEIGHT` (source line 56). -/
def SCREEN_HEIGHT : Int := 720

/-- `VIRTUAL_WIDTH` (source line 57): the virtual canvas is two screens wide. -/
def VIRTUAL_WIDTH : Int := SCREEN_WIDTH * 2

/-- `BYTES_PER_PIXEL` (source lines 59-60): 32-bit color, 4 bytes per pixel. -/
def BYTES_PER_PIXEL : Int := 32 / 8

/-- Conversion of a C `int32_t` value to `uint32_t` (reduction mod 2^32),
used where the flush callback assigns `int32_t` locals into the
`uint32_t` fields of `dma_2d_config_t`. -/
def u32i (i : Int) : Nat := (i % 4294967296).toNat

/-- `lv_area_t`: the LVGL dirty-region rectangle, inclusive coordinates,
`int32_t` fields modelled as `Int`. -/
structure lv_area_t where
  x1 : Int
  y1 : Int
  x2 : Int
  y2 : Int
deriving DecidableEq

/-- `dma_2d_config_t` (source lines 69-78): the simulated DMA transfer
configuration.  `src`/`dst` are byte addresses; the remaining fields are
the `uint32_t` register values. -/
structure dma_2d_config_t where
  src : Int
  dst : Int
  width : Nat
  height : Nat
  src_stride : Nat
  dst_stride : Nat
  bpp : Nat
deriving DecidableEq

/-- One `sim_dma_transfer_2d` submission made by `dualscreen_flush_cb`:
the DMA configuration, the `notify` flag (whether `dma_worker` will call
`lv_display_flush_ready` after copying), and the index of the
`dma_req[]` slot used (source lines 215-228). -/
structure DmaCall where
  cfg : dma_2d_config_t
  notify : Bool
  req_idx : Nat
deriving DecidableEq

/-- The flush-relevant part of `dualscreen_ctx_t` (source lines 92-105):
base addresses of the two mapped framebuffers and their row strides
(`uint32_t`). -/
structure dualscreen_ctx_t where
  mem_left : Int
  mem_right : Int
  stride_left : Nat
  stride_right : Nat
deriving DecidableEq

/-- `left_x2` as computed by `dualscreen_flush_cb` (source line 260):
the dirty region's right edge clamped to the left screen. -/
def left_x2 (area : lv_area_t) : Int :=
  if area.x2 < SCREEN_WIDTH then area.x2 else SCREEN_WIDTH - 1

/-- `right_x1` as computed by `dualscreen_flush_cb` (source line 287):
the dirty region's left edge in right-screen local coordinates. -/
def right_x1 (area : lv_area_t) : Int :=
  if SCREEN_WIDTH ≤ area.x1 then area.x1 - SCREEN_WIDTH else 0

/-- `right_x2` as computed by `dualscreen_flush_cb` (source line 288). -/
def right_x2 (area : lv_area_t) : Int :=
  area.x2 - SCREEN_WIDTH

/-- `src_x1` as computed by `dualscreen_flush_cb` (source line 290): the
global canvas x-coordinate where the right-screen copy starts reading. -/
def src_x1 (area : lv_area_t) : Int :=
  if SCREEN_WIDTH ≤ area.x1 then area.x1 else SCREEN_WIDTH

/-- The left-screen DMA submission built by `dualscreen_flush_cb`
(source lines 257-281), issued when `x1 < SCREEN_WIDTH`.  Its `notify`
flag is `!update_right`, i.e. true exactly when `x2 < SCREEN_WIDTH`. -/
def leftCall (ctx : dualscreen_ctx_t) (area : lv_area_t) (color_p : Int) : DmaCall :=
  { cfg :=
      { src := color_p + (area.y1 * VIRTUAL_WIDTH + area.x1) * BYTES_PER_PIXEL
      , dst := ctx.mem_left + area.y1 * (ctx.stride_left : Int)
               + area.x1 * BYTES_PER_PIXEL
      , width := u32i (left_x2 area - area.x1 + 1)
      , height := u32i (area.y2 - area.y1 + 1)
      , src_stride := u32i (VIRTUAL_WIDTH * BYTES_PER_PIXEL)
      , dst_stride := ctx.stride_left
      , bpp := u32i BYTES_PER_PIXEL }
  , notify := !(decide (SCREEN_WIDTH ≤ area.x2))
  , req_idx := 0 }

/-- The right-screen DMA submission built by `dualscreen_flush_cb`
(source lines 285-309), issued when `x2 ≥ SCREEN_WIDTH`.  Its `notify`
flag is always true. -/
def rightCall (ctx : dualscreen_ctx_t) (area : lv_area_t) (color_p : Int) : DmaCall :=
  { cfg :=
      { src := color_p + (area.y1 * VIRTUAL_WIDTH + src_x1 area) * BYTES_PER_PIXEL
      , dst := ctx.mem_right + area.y1 * (ctx.stride_right : Int)
               + right_x1 area * BYTES_PER_PIXEL
      , width := u32i (right_x2 area - right_x1 area + 1)
      , height := u32i (area.y2 - area.y1 + 1)
      , src_stride := u32i (VIRTUAL_WIDTH * BYTES_PER_PIXEL)
      , dst_stride := ctx.stride_right
      , bpp := u32i BYTES_PER_PIXEL }
  , notify := true
  , req_idx := 1 }

/-- `dualscreen_flush_cb` (source lines 238-311): submits the
left-screen transfer when the dirty region reaches into `x < 960`
(line 257), then the right-screen transfer when it reaches into
`x ≥ 960` (`update_right`, lines 253 and 285), in that order.  The
result lists the `sim_dma_transfer_2d` submissions in submission
order. -/
def dualscreen_flush_cb (ctx : dualscreen_ctx_t) (area : lv_area_t)
    (color_p : Int) : List DmaCall :=
  (if area.x1 < SCREEN_WIDTH then [leftCall ctx area color_p] else [])
    ++ (if SCREEN_WIDTH ≤ area.x2 then [rightCall ctx area color_p] else [])

/-- A per-surface sub-rectangle in that surface's local coordinate
space: `surface` is 0 for the left screen, 1 for the right screen. -/
structure SubRect where
  surface : Nat
  x1 : Int
  y1 : Int
  x2 : Int
  y2 : Int
deriving DecidableEq

/-- The local sub-rectangles computed by `dualscreen_flush_cb`: the left
branch (lines 257-261) uses `x1 .. left_x2` and the right branch (lines
285-289) uses `right_x1 .. right_x2`, both with the unsplit vertical
extent `y1 .. y2`. -/
def flushSubRects (area : lv_area_t) : List SubRect :=
  (if area.x1 < SCREEN_WIDTH then
      [⟨0, area.x1, area.y1, left_x2 area, area.y2⟩] else [])
    ++ (if SCREEN_WIDTH ≤ area.x2 then
      [⟨1, right_x1 area, area.y1, right_x2 area, area.y2⟩] else [])

/-- Translate a local sub-rectangle's left edge back to global canvas
coordinates (surface k starts at canvas x = k * SCREEN_WIDTH). -/
def SubRect.globalX1 (r : SubRect) : Int := r.x1 + r.surface * SCREEN_WIDTH

/-- Translate a local sub-rectangle's right edge back to global canvas
coordinates. -/
def SubRect.globalX2 (r : SubRect) : Int := r.x2 + r.surface * SCREEN_WIDTH

/-- Number of submitted jobs that will invoke `lv_display_flush_ready`:
`dma_worker` (source lines 200-203) notifies exactly when `req.notify`
is set, so this counts the completion signals delivered for a flush. -/
def notifyCount (cs : List DmaCall) : Nat := cs.countP (fun c => c.notify)

/-- Byte-addressed memory: address to byte value. -/
def Mem : Type := Int → Nat

/-- `memcpy(d, s, n)` over the memory model: bytes `[d, d+n)` take the
values of bytes `[s, s+n)`, everything else is unchanged. -/
def memcpy (m : Mem) (d s : Int) (n : Nat) : Mem :=
  fun a => if d ≤ a ∧ a < d + (n : Int) then m (s + (a - d)) else m a

/-- Reduction of a `Nat` product mod 2^32, modelling the `uint32_t`
multiplication `req->cfg.width * req->cfg.bpp` (source line 190). -/
def u32n (n : Nat) : Nat := n % 4294967296

/-- The `while (h--)` loop of `dma_worker` (source lines 193-198): `k`
rows remain; each iteration copies `line` bytes from `s` to `d`, then
advances `s` by `ss` and `d` by `ds`. -/
def dma_worker_loop (line ss ds : Nat) : Nat → Int → Int → Mem → Mem
  | 0, _, _, m => m
  | Nat.succ k, s, d, m =>
      dma_worker_loop line ss ds k (s + (ss : Int)) (d + (ds : Int))
        (memcpy m d s line)

/-- `dma_worker` (source lines 185-204): copies `cfg.height` rows of
`cfg.width * cfg.bpp` bytes (a `uint32_t` product) from `cfg.src` to
`cfg.dst`, advancing by the two strides after each row.  The final
`lv_display_flush_ready` notification (lines 200-203) is modelled by
`notifyCount` on the submitted calls. -/
def dma_worker (cfg : dma_2d_config_t) (m : Mem) : Mem :=
  dma_worker_loop (u32n (cfg.width * cfg.bpp)) cfg.src_stride cfg.dst_stride
    cfg.height cfg.src cfg.dst m

/-- Outcome of the submission path of one `sim_dma_transfer_2d` call:
how many `work_queue` submissions were attempted, whether the copy was
instead run synchronously on the caller's thread, and whether the job
ended up queued. -/
structure submit_outcome where
  attempts : Nat
  sync_executed : Bool
  queued : Bool
deriving DecidableEq

/-- `sim_dma_transfer_2d` (source lines 215-228): it copies the
configuration into `dma_req[req_idx]` and then issues exactly one
`work_queue(HPWORK, ...)` call, discarding its return value (line 227).
There is no retry loop and no synchronous-execution path in the
function body, so when the queue rejects the submission the job is
simply not queued. -/
def sim_dma_transfer_2d (work_queue_accepts : Bool) : submit_outcome :=
  { attempts := 1, sync_executed := false, queued := work_queue_accepts }

/-- Environment for one `init_framebuffer` run (source lines 135-175):
whether `open`, the two `ioctl`s succeed, the `mmap` result (`none`
models `MAP_FAILED`), and the geometry reported by `FBIOGET_PLANEINFO`. -/
structure fb_env where
  open_ok : Bool
  vinfo_ok : Bool
  pinfo_ok : Bool
  mmap_addr : Option Int
  stride : Nat
  fblen : Nat
deriving DecidableEq

/-- The value held by the caller's `mem` output pointer: a successful
mapping or the `MAP_FAILED` sentinel (which is not `NULL`). -/
inductive mem_ptr where
  | mapped (a : Int) : mem_ptr
  | map_failed : mem_ptr
deriving DecidableEq

/-- Observable result of `init_framebuffer`: the return value, whether
the opened file descriptor is still open on return, and the values left
in the three output parameters (`none` = never written). -/
structure fb_out where
  ret : Int
  fd_open : Bool
  mem : Option mem_ptr
  stride_out : Option Nat
  fblen_out : Option Nat
deriving DecidableEq

/-- `init_framebuffer` (source lines 135-175): opens the device, runs
`FBIOGET_VIDEOINFO` and `FBIOGET_PLANEINFO`, then `mmap`s.  On `open`
or `ioctl` failure it closes the fd and returns -1 with `*mem`
untouched; on `mmap` failure `*mem` has already been assigned the
`mmap` result `MAP_FAILED` (line 162) before the fd is closed and -1
returned; `*stride` and `*fblen` are assigned only after every step
succeeded (lines 171-172). -/
def init_framebuffer (env : fb_env) : fb_out :=
  if env.open_ok = false then
    { ret := -1, fd_open := false, mem := none, stride_out := none, fblen_out := none }
  else if env.vinfo_ok = false then
    { ret := -1, fd_open := false, mem := none, stride_out := none, fblen_out := none }
  else if env.pinfo_ok = false then
    { ret := -1, fd_open := false, mem := none, stride_out := none, fblen_out := none }
  else
    match env.mmap_addr with
    | none =>
        { ret := -1, fd_open := false, mem := some mem_ptr.map_failed,
          stride_out := none, fblen_out := none }
    | some a =>
        { ret := 0, fd_open := true, mem := some (mem_ptr.mapped a),
          stride_out := some env.stride, fblen_out := some env.fblen }

/-- The resources acquired and released by `create_dualscreen_display`:
the two framebuffer file descriptors, the two memory mappings, the two
draw buffers and the LVGL display object. -/
inductive res where
  | fdL | fdR | mapL | mapR | buf1 | buf2 | disp
deriving DecidableEq

/-- The acquire (`true`) / release (`false`) events performed by one
`init_framebuffer` run (source lines 135-175): the fd is acquired by
`open` and closed again on each internal failure path; the mapping is
acquired only when `mmap` succeeds. -/
def fb_events (env : fb_env) (fd m : res) : List (Bool × res) :=
  if env.open_ok = false then []
  else if env.vinfo_ok = false then [(true, fd), (false, fd)]
  else if env.pinfo_ok = false then [(true, fd), (false, fd)]
  else
    match env.mmap_addr with
    | none => [(true, fd), (false, fd)]
    | some _ => [(true, fd), (true, m)]

/-- Environment for one `create_dualscreen_display` run (source lines
321-395): the two framebuffer environments, the two `malloc` outcomes
and the `lv_display_create` outcome. -/
structure create_env where
  fb0 : fb_env
  fb1 : fb_env
  malloc1_ok : Bool
  malloc2_ok : Bool
  disp_ok : Bool
deriving DecidableEq

/-- `create_dualscreen_display` (source lines 321-395), viewed through
its resource events: returns whether a display was created, together
with the acquire/release trace.  Each failure path (lines 332-334,
340-344, 350-357, 360-368, 373-382) releases exactly what the earlier
steps acquired, in the order written in the source. -/
def create_dualscreen_display (env : create_env) : Bool × List (Bool × res) :=
  if (init_framebuffer env.fb0).ret < 0 then
    (false, fb_events env.fb0 res.fdL res.mapL)
  else if (init_framebuffer env.fb1).ret < 0 then
    (false, fb_events env.fb0 res.fdL res.mapL ++ fb_events env.fb1 res.fdR res.mapR
      ++ [(false, res.mapL), (false, res.fdL)])
  else if env.malloc1_ok = false then
    (false, fb_events env.fb0 res.fdL res.mapL ++ fb_events env.fb1 res.fdR res.mapR
      ++ [(false, res.mapL), (false, res.mapR), (false, res.fdL), (false, res.fdR)])
  else if env.malloc2_ok = false then
    (false, fb_events env.fb0 res.fdL res.mapL ++ fb_events env.fb1 res.fdR res.mapR
      ++ [(true, res.buf1), (false, res.buf1), (false, res.mapL), (false, res.mapR),
          (false, res.fdL), (false, res.fdR)])
  else if env.disp_ok = false then
    (false, fb_events env.fb0 res.fdL res.mapL ++ fb_events env.fb1 res.fdR res.mapR
      ++ [(true, res.buf1), (true, res.buf2), (false, res.buf1), (false, res.buf2),
          (false, res.mapL), (false, res.mapR), (false, res.fdL), (false, res.fdR)])
  else
    (true, fb_events env.fb0 res.fdL res.mapL ++ fb_events env.fb1 res.fdR res.mapR
      ++ [(true, res.buf1), (true, res.buf2), (true, res.disp)])

/-- Number of times resource `r` is acquired in an event trace. -/
def acqCount (t : List (Bool × res)) (r : res) : Nat :=
  t.countP (fun e => e.1 == true && e.2 == r)

/-- Number of times resource `r` is released in an event trace. -/
def relCount (t : List (Bool × res)) (r : res) : Nat :=
  t.countP (fun e => e.1 == false && e.2 == r)

/-- Some resource-acquisition step of `create_dualscreen_display`
fails: either framebuffer setup, either canvas allocation, or the
display creation. -/
def create_step_fails (env : create_env) : Prop :=
  (init_framebuffer env.fb0).ret < 0 ∨ (init_framebuffer env.fb1).ret < 0 ∨
  env.malloc1_ok = false ∨ env.malloc2_ok = false ∨ env.disp_ok = false

/-- A sample driver context for concrete evaluations: framebuffers
mapped at addresses 0 and 1000000, both with stride 3840 bytes. -/
def sampleCtx : dualscreen_ctx_t := ⟨0, 1000000, 3840, 3840⟩

/-- A sample byte memory. -/
def sampleMem : Mem := fun a => a.toNat % 256

/-- The transfer configuration of the spec's byte-exact-copy scenario:
width 100 px, height 50 rows, 4 bytes per pixel, source stride 4096,
destination stride 3840, source at 1000000, destination at 0. -/
def sampleCfg : dma_2d_config_t :=
  { src := 1000000, dst := 0, width := 100, height := 50,
    src_stride := 4096, dst_stride := 3840, bpp := 4 }

/-- A sample startup environment in which the second framebuffer's
`mmap` fails while every other step would succeed. -/
def sampleFailEnv : create_env :=
  { fb0 := ⟨true, true, true, some 0, 3840, 2764800⟩
  , fb1 := ⟨true, true, true, none, 3840, 2764800⟩
  , malloc1_ok := true, malloc2_ok := true, disp_ok := true }

/-! Case lemmas for the three reachable shapes of a flush. -/

/-- When the dirty region straddles the boundary, both calls are
submitted, left first. -/
theorem flush_cb_both (ctx : dualscreen_ctx_t) (area : lv_area_t) (p : Int)
    (hL : area.x1 < SCREEN_WIDTH) (hR : SCREEN_WIDTH ≤ area.x2) :
    dualscreen_flush_cb ctx area p = [leftCall ctx area p, rightCall ctx area p] := by
  unfold dualscreen_flush_cb
  rw [if_pos hL, if_pos hR]
  rfl

/-- When the dirty region lies wholly on the left screen, only the left
call is submitted. -/
theorem flush_cb_left_only (ctx : dualscreen_ctx_t) (area : lv_area_t) (p : Int)
    (hL : area.x1 < SCREEN_WIDTH) (hR : ¬ SCREEN_WIDTH ≤ area.x2) :
    dualscreen_flush_cb ctx area p = [leftCall ctx area p] := by
  unfold dualscreen_flush_cb
  rw [if_pos hL, if_neg hR]
  rfl

/-- When the dirty region lies wholly on the right screen, only the
right call is submitted. -/
theorem flush_cb_right_only (ctx : dualscreen_ctx_t) (area : lv_area_t) (p : Int)
    (hL : ¬ area.x1 < SCREEN_WIDTH) (hR : SCREEN_WIDTH ≤ area.x2) :
    dualscreen_flush_cb ctx area p = [rightCall ctx area p] := by
  unfold dualscreen_flush_cb
  rw [if_neg hL, if_pos hR]
  rfl

/-- Analogue of `flush_cb_both` for the sub-rectangle view. -/
theorem flushSubRects_both (area : lv_area_t)
    (hL : area.x1 < SCREEN_WIDTH) (hR : SCREEN_WIDTH ≤ area.x2) :
    flushSubRects area =
      [⟨0, area.x1, area.y1, left_x2 area, area.y2⟩,
       ⟨1, right_x1 area, area.y1, right_x2 area, area.y2⟩] := by
  unfold flushSubRects
  rw [if_pos hL, if_pos hR]
  rfl

/-- C1: a boundary-straddling dirty region with valid bounds produces
exactly two transfer jobs; their widths sum to the original width; the
two local sub-rectangles are `(x1,y1)-(959,y2)` on screen 0 and
`(0,y1)-(x2-960,y2)` on screen 1, and translated back to global canvas
coordinates they reconstruct the original x-range exactly. -/
theorem flush_straddle_split (ctx : dualscreen_ctx_t) (p : Int) (area : lv_area_t)
    (hx1 : 0 ≤ area.x1) (hx12 : area.x1 ≤ area.x2) (hx2 : area.x2 < VIRTUAL_WIDTH)
    (hy1 : 0 ≤ area.y1) (hy12 : area.y1 ≤ area.y2) (hy2 : area.y2 < SCREEN_HEIGHT)
    (hsL : area.x1 < SCREEN_WIDTH) (hsR : SCREEN_WIDTH ≤ area.x2) :
    (dualscreen_flush_cb ctx area p).length = 2 ∧
    flushSubRects area =
      [⟨0, area.x1, area.y1, SCREEN_WIDTH - 1, area.y2⟩,
       ⟨1, 0, area.y1, area.x2 - SCREEN_WIDTH, area.y2⟩] ∧
    ((dualscreen_flush_cb ctx area p).map (fun c => (c.cfg.width : Int))).sum
      = area.x2 - area.x1 + 1 ∧
    (∀ x : Int, (area.x1 ≤ x ∧ x ≤ area.x2) ↔
      ∃ r ∈ flushSubRects area, r.globalX1 ≤ x ∧ x ≤ r.globalX2) := by
  have hx2' : ¬ area.x2 < SCREEN_WIDTH := by omega
  have hx1' : ¬ SCREEN_WIDTH ≤ area.x1 := by omega
  have hsub := flushSubRects_both area hsL hsR
  have hlx2 : left_x2 area = SCREEN_WIDTH - 1 := by
    unfold left_x2; rw [if_neg hx2']
  have hrx1 : right_x1 area = 0 := by
    unfold right_x1; rw [if_neg hx1']
  refine ⟨?_, ?_, ?_, ?_⟩
  · rw [flush_cb_both ctx area p hsL hsR]; rfl
  · rw [hsub, hlx2, hrx1]; rfl
  · rw [flush_cb_both ctx area p hsL hsR]
    simp only [List.map_cons, List.map_nil, List.sum_cons, List.sum_nil,
      leftCall, rightCall]
    rw [hlx2, hrx1]
    unfold right_x2
    simp only [u32i, SCREEN_WIDTH, VIRTUAL_WIDTH, SCREEN_HEIGHT] at *
    omega
  · intro x
    rw [hsub, hlx2, hrx1]
    unfold right_x2
    simp only [List.mem_cons, List.not_mem_nil, or_false, SubRect.globalX1,
      SubRect.globalX2]
    constructor
    · intro hx
      by_cases hcase : x < SCREEN_WIDTH
      · exact ⟨_, Or.inl rfl, by simp only [SCREEN_WIDTH] at *; push_cast; omega⟩
      · exact ⟨_, Or.inr rfl, by simp only [SCREEN_WIDTH] at *; push_cast; omega⟩
    · rintro ⟨r, hr | hr, hx⟩ <;> subst hr <;>
        simp only [SCREEN_WIDTH] at * <;> push_cast at hx ⊢ <;> omega

/-- C1 witness: the spec scenario, dirty rect (900,10)-(1020,20). -/
theorem flush_straddle_split_witness :
    (dualscreen_flush_cb ⟨0, 1000000, 3840, 3840⟩ ⟨900, 10, 1020, 20⟩ 2000000).length = 2 ∧
    flushSubRects ⟨900, 10, 1020, 20⟩ =
      [⟨0, 900, 10, 959, 20⟩, ⟨1, 0, 10, 60, 20⟩] := by
  have h := flush_straddle_split ⟨0, 1000000, 3840, 3840⟩ 2000000 ⟨900, 10, 1020, 20⟩
    (by decide) (by decide) (by decide) (by decide) (by decide) (by decide)
    (by decide) (by decide)
  exact ⟨h.1, by rw [h.2.1]; decide⟩

/-- C2: a valid dirty region lying wholly on one screen produces exactly
one transfer job: left of the boundary it goes to the left screen
(`dma_req[0]`) with x-coordinates unchanged; right of the boundary it
goes to the right screen (`dma_req[1]`) with x-coordinates shifted by
`-SCREEN_WIDTH`. -/
theorem flush_single_surface (ctx : dualscreen_ctx_t) (p : Int) (area : lv_area_t)
    (hx1 : 0 ≤ area.x1) (hx12 : area.x1 ≤ area.x2) (hx2 : area.x2 < VIRTUAL_WIDTH)
    (hy1 : 0 ≤ area.y1) (hy12 : area.y1 ≤ area.y2) (hy2 : area.y2 < SCREEN_HEIGHT) :
    (area.x2 < SCREEN_WIDTH →
      (dualscreen_flush_cb ctx area p).length = 1 ∧
      (dualscreen_flush_cb ctx area p).map DmaCall.req_idx = [0] ∧
      flushSubRects area = [⟨0, area.x1, area.y1, area.x2, area.y2⟩]) ∧
    (SCREEN_WIDTH ≤ area.x1 →
      (dualscreen_flush_cb ctx area p).length = 1 ∧
      (dualscreen_flush_cb ctx area p).map DmaCall.req_idx = [1] ∧
      flushSubRects area =
        [⟨1, area.x1 - SCREEN_WIDTH, area.y1, area.x2 - SCREEN_WIDTH, area.y2⟩]) := by
  constructor
  · intro hlt
    have hL : area.x1 < SCREEN_WIDTH := by omega
    have hR : ¬ SCREEN_WIDTH ≤ area.x2 := by omega
    rw [flush_cb_left_only ctx area p hL hR]
    refine ⟨rfl, rfl, ?_⟩
    unfold flushSubRects
    rw [if_pos hL, if_neg hR]
    unfold left_x2
    rw [if_pos hlt]
    rfl
  · intro hge
    have hL : ¬ area.x1 < SCREEN_WIDTH := by omega
    have hR : SCREEN_WIDTH ≤ area.x2 := by omega
    rw [flush_cb_right_only ctx area p hL hR]
    refine ⟨rfl, rfl, ?_⟩
    unfold flushSubRects
    rw [if_neg hL, if_pos hR]
    unfold right_x1 right_x2
    rw [if_pos hge]
    rfl

/-- C2 witness: dirty rect (10,0)-(100,5) lies wholly on the left
screen and yields one unshifted left-screen job; (1000,0)-(1100,5) lies
wholly on the right screen and yields one shifted right-screen job. -/
theorem flush_single_surface_witness :
    flushSubRects ⟨10, 0, 100, 5⟩ = [⟨0, 10, 0, 100, 5⟩] ∧
    flushSubRects ⟨1000, 0, 1100, 5⟩ = [⟨1, 40, 0, 140, 5⟩] := by
  have h1 := (flush_single_surface ⟨0, 1000000, 3840, 3840⟩ 2000000 ⟨10, 0, 100, 5⟩
    (by decide) (by decide) (by decide) (by decide) (by decide) (by decide)).1
    (by decide)
  have h2 := (flush_single_surface ⟨0, 1000000, 3840, 3840⟩ 2000000 ⟨1000, 0, 1100, 5⟩
    (by decide) (by decide) (by decide) (by decide) (by decide) (by decide)).2
    (by decide)
  exact ⟨h1.2.2, by rw [h2.2.2]; decide⟩

/-- Exactly one submitted call of a valid flush carries the notify
flag, and it is the last submitted call: the left call notifies only
when no right call follows, the right call always notifies. -/
theorem flush_shape_cases (ctx : dualscreen_ctx_t) (p : Int) (area : lv_area_t)
    (hx12 : area.x1 ≤ area.x2) (hx2 : area.x2 < VIRTUAL_WIDTH) :
    (dualscreen_flush_cb ctx area p
        = [leftCall ctx area p, rightCall ctx area p] ∧
      (leftCall ctx area p).notify = false ∧ (rightCall ctx area p).notify = true) ∨
    (∃ c, dualscreen_flush_cb ctx area p = [c] ∧ c.notify = true) := by
  by_cases hL : area.x1 < SCREEN_WIDTH
  · by_cases hR : SCREEN_WIDTH ≤ area.x2
    · refine Or.inl ⟨flush_cb_both ctx area p hL hR, ?_, rfl⟩
      simp only [leftCall, decide_eq_true hR, Bool.not_true]
    · refine Or.inr ⟨leftCall ctx area p, flush_cb_left_only ctx area p hL hR, ?_⟩
      simp only [leftCall, decide_eq_false hR, Bool.not_false]
  · have hR : SCREEN_WIDTH ≤ area.x2 := by omega
    exact Or.inr ⟨rightCall ctx area p, flush_cb_right_only ctx area p hL hR, rfl⟩

/-- C4 (amended): for every valid dirty region the flush submits at
least one job; exactly one submitted job carries the completion
notification, under any execution order of the jobs (so the completion
fires exactly once); and that job is the last-submitted one, so the
completion fires after all transfers only when the execution facility
runs jobs in submission order. -/
theorem flush_completion_once_in_order (ctx : dualscreen_ctx_t) (p : Int)
    (area : lv_area_t) (hx12 : area.x1 ≤ area.x2) (hx2 : area.x2 < VIRTUAL_WIDTH) :
    (∀ ex : List DmaCall, ex.Perm (dualscreen_flush_cb ctx area p) →
      notifyCount ex = 1) ∧
    (∀ c ∈ (dualscreen_flush_cb ctx area p).dropLast, c.notify = false) ∧
    ((dualscreen_flush_cb ctx area p).getLast?.map DmaCall.notify = some true) := by
  rcases flush_shape_cases ctx p area hx12 hx2 with ⟨hcalls, hlf, hrt⟩ | ⟨c, hcalls, hct⟩
  · refine ⟨?_, ?_, ?_⟩
    · intro ex hex
      rw [notifyCount, hex.countP_eq]
      rw [hcalls]
      simp [hlf, hrt]
    · intro c hc
      rw [hcalls] at hc
      simp only [List.dropLast, List.mem_singleton] at hc
      rw [hc, hlf]
    · rw [hcalls]
      simp [hrt]
  · refine ⟨?_, ?_, ?_⟩
    · intro ex hex
      rw [notifyCount, hex.countP_eq]
      rw [hcalls]
      simp [hct]
    · intro d hd
      rw [hcalls] at hd
      simp at hd
    · rw [hcalls]
      simp [hct]

/-- C4 witness: the straddling rect (900,10)-(1020,20) yields exactly
one completion under the submission order itself. -/
theorem flush_completion_once_in_order_witness :
    notifyCount (dualscreen_flush_cb sampleCtx ⟨900, 10, 1020, 20⟩ 2000000) = 1 :=
  (flush_completion_once_in_order sampleCtx 2000000 ⟨900, 10, 1020, 20⟩
    (by decide) (by decide)).1
    (dualscreen_flush_cb sampleCtx ⟨900, 10, 1020, 20⟩ 2000000) (List.Perm.refl _)

/-- C4 counterexample: for the straddling rect (900,10)-(1020,20) there
is a permitted interleaving of the two jobs (the reversed order, as a
second worker could produce) in which the notify-carrying job is not
last, i.e. `lv_display_flush_ready` fires before the other transfer has
run.  The completion is therefore not ordered after all transfers under
arbitrary interleavings. -/
theorem flush_completion_reorder_cex :
    ¬ (∀ ex : List DmaCall,
        ex.Perm (dualscreen_flush_cb sampleCtx ⟨900, 10, 1020, 20⟩ 2000000) →
        ∀ c ∈ ex.dropLast, c.notify = false) := by
  intro hall
  have h := hall (dualscreen_flush_cb sampleCtx ⟨900, 10, 1020, 20⟩ 2000000).reverse
    (List.reverse_perm _)
  revert h
  decide

/-- C5 (amended): a degenerate dirty region touching neither screen
(`x1 ≥ 960` and `x2 < 960`) makes the flush callback submit zero
transfer jobs and return without any completion notification: no
submitted job carries the notify flag, so `lv_display_flush_ready` is
never called for this flush. -/
theorem flush_degenerate_no_jobs (ctx : dualscreen_ctx_t) (p : Int)
    (area : lv_area_t) (h1 : SCREEN_WIDTH ≤ area.x1) (h2 : area.x2 < SCREEN_WIDTH) :
    dualscreen_flush_cb ctx area p = [] ∧
    notifyCount (dualscreen_flush_cb ctx area p) = 0 := by
  have hL : ¬ area.x1 < SCREEN_WIDTH := not_lt.mpr h1
  have hR : ¬ SCREEN_WIDTH ≤ area.x2 := not_le.mpr h2
  unfold dualscreen_flush_cb
  rw [if_neg hL, if_neg hR]
  exact ⟨rfl, rfl⟩

/-- C5 witness: the degenerate region (960,0)-(959,0). -/
theorem flush_degenerate_no_jobs_witness :
    dualscreen_flush_cb sampleCtx ⟨960, 0, 959, 0⟩ 2000000 = [] ∧
    notifyCount (dualscreen_flush_cb sampleCtx ⟨960, 0, 959, 0⟩ 2000000) = 0 :=
  flush_degenerate_no_jobs sampleCtx 2000000 ⟨960, 0, 959, 0⟩ (by decide) (by decide)

/-- C5 counterexample: for the degenerate region (960,0)-(959,0) the
flush callback submits zero jobs, yet the number of completion
notifications is 0, not the immediate single completion the claim
requires. -/
theorem flush_degenerate_cex :
    dualscreen_flush_cb sampleCtx ⟨960, 0, 959, 0⟩ 2000000 = [] ∧
    notifyCount (dualscreen_flush_cb sampleCtx ⟨960, 0, 959, 0⟩ 2000000) ≠ 1 := by
  decide

/-- C6: in every flush, a submitted left-screen job (request slot 0)
carries the notify flag exactly when the dirty region does not reach
the right screen (`x2 < 960`), and a submitted right-screen job
(request slot 1) always carries the notify flag. -/
theorem flush_notify_assignment (ctx : dualscreen_ctx_t) (p : Int)
    (area : lv_area_t) :
    ((dualscreen_flush_cb ctx area p).all (fun c =>
      ((c.req_idx != 0) || (c.notify == decide (area.x2 < SCREEN_WIDTH))) &&
      ((c.req_idx != 1) || c.notify))) = true := by
  by_cases hL : area.x1 < SCREEN_WIDTH
  · by_cases hR : SCREEN_WIDTH ≤ area.x2
    · rw [flush_cb_both ctx area p hL hR]
      simp [leftCall, rightCall, hR, not_le.mpr, decide_eq_false (not_lt.mpr hR)]
    · rw [flush_cb_left_only ctx area p hL hR]
      simp [leftCall, decide_eq_false hR, decide_eq_true (not_le.mp hR)]
  · by_cases hR : SCREEN_WIDTH ≤ area.x2
    · rw [flush_cb_right_only ctx area p hL hR]
      simp [rightCall]
    · unfold dualscreen_flush_cb
      rw [if_neg hL, if_neg hR]
      rfl

/-- C7 (amended): the submission helper makes exactly one `work_queue`
attempt per job, never runs the copy synchronously, and leaves the job
unqueued whenever the single attempt is rejected. -/
theorem sim_dma_transfer_single_attempt (work_queue_accepts : Bool) :
    (sim_dma_transfer_2d work_queue_accepts).attempts = 1 ∧
    (sim_dma_transfer_2d work_queue_accepts).sync_executed = false ∧
    (sim_dma_transfer_2d work_queue_accepts).queued = work_queue_accepts :=
  ⟨rfl, rfl, rfl⟩

/-- C7 counterexample: when the work queue rejects the submission, the
job is not queued, yet no second attempt is made and no synchronous
fallback runs -- the job is silently dropped. -/
theorem sim_dma_transfer_drop_cex :
    (sim_dma_transfer_2d false).queued = false ∧
    ¬ (2 ≤ (sim_dma_transfer_2d false).attempts ∨
       (sim_dma_transfer_2d false).sync_executed = true) := by
  decide

/-- C9: every flush submits at most one job per request slot, the slots
used are pairwise distinct, and slot 0 always holds the left-screen
destination while slot 1 always holds the right-screen destination, so
the at most two jobs of one flush never share a request structure. -/
theorem flush_distinct_req_slots (ctx : dualscreen_ctx_t) (p : Int)
    (area : lv_area_t) :
    ((dualscreen_flush_cb ctx area p).map DmaCall.req_idx).Nodup ∧
    ((dualscreen_flush_cb ctx area p).all (fun c =>
      (c.req_idx == 0 && (c.cfg.dst_stride == ctx.stride_left) &&
        decide (c.cfg.dst = ctx.mem_left + area.y1 * (ctx.stride_left : Int)
          + area.x1 * BYTES_PER_PIXEL))
      || (c.req_idx == 1 && (c.cfg.dst_stride == ctx.stride_right) &&
        decide (c.cfg.dst = ctx.mem_right + area.y1 * (ctx.stride_right : Int)
          + right_x1 area * BYTES_PER_PIXEL)))) = true := by
  by_cases hL : area.x1 < SCREEN_WIDTH
  · by_cases hR : SCREEN_WIDTH ≤ area.x2
    · rw [flush_cb_both ctx area p hL hR]
      refine ⟨?_, ?_⟩ <;> simp [leftCall, rightCall]
    · rw [flush_cb_left_only ctx area p hL hR]
      refine ⟨?_, ?_⟩ <;> simp [leftCall]
  · by_cases hR : SCREEN_WIDTH ≤ area.x2
    · rw [flush_cb_right_only ctx area p hL hR]
      refine ⟨?_, ?_⟩ <;> simp [rightCall]
    · unfold dualscreen_flush_cb
      rw [if_neg hL, if_neg hR]
      exact ⟨List.nodup_nil, rfl⟩

/-- Frame property of the copy loop: an address outside every
destination row is left unchanged. -/
theorem dma_worker_loop_frame (line ss ds : Nat) :
    ∀ (k : Nat) (s d : Int) (m : Mem) (a : Int),
      (∀ r : Nat, r < k → ¬ (d + (r : Int) * (ds : Int) ≤ a ∧
        a < d + (r : Int) * (ds : Int) + (line : Int))) →
      dma_worker_loop line ss ds k s d m a = m a := by
  intro k
  induction k with
  | zero => intro s d m a _; rfl
  | succ n ih =>
      intro s d m a h
      have h0 : ¬ (d ≤ a ∧ a < d + (line : Int)) := by
        have := h 0 (Nat.succ_pos n)
        simpa using this
      have hrec : ∀ r : Nat, r < n →
          ¬ (d + (ds : Int) + (r : Int) * (ds : Int) ≤ a ∧
             a < d + (ds : Int) + (r : Int) * (ds : Int) + (line : Int)) := by
        intro r hr
        have key : d + ((r : Int) + 1) * (ds : Int)
            = d + (ds : Int) + (r : Int) * (ds : Int) := by ring
        have hx := h (r + 1) (by omega)
        push_cast at hx
        rw [key] at hx
        exact hx
      show dma_worker_loop line ss ds n (s + (ss : Int)) (d + (ds : Int))
        (memcpy m d s line) a = m a
      rw [ih (s + (ss : Int)) (d + (ds : Int)) (memcpy m d s line) a hrec]
      simp only [memcpy]
      rw [if_neg h0]

/-- Row-copy property of the loop: when rows do not overlap
(`line ≤ ds`) and the whole source region lies above the destination
span, byte `i` of row `r` of the destination ends up holding byte `i`
of row `r` of the source. -/
theorem dma_worker_loop_row (line ss ds : Nat) (hlds : line ≤ ds) :
    ∀ (k : Nat) (s d : Int) (m : Mem) (r i : Nat),
      r < k → i < line →
      d + (((k - 1) * ds + line : Nat) : Int) ≤ s →
      dma_worker_loop line ss ds k s d m
          (d + (r : Int) * (ds : Int) + (i : Int))
        = m (s + (r : Int) * (ss : Int) + (i : Int)) := by
  intro k
  induction k with
  | zero => intro s d m r i hr; exact absurd hr (Nat.not_lt_zero r)
  | succ n ih =>
      intro s d m r i hr hi hsep
      have hi' : (i : Int) < (line : Int) := by exact_mod_cast hi
      have hlds' : (line : Int) ≤ (ds : Int) := by exact_mod_cast hlds
      have hsep' : d + ((n : Int) * (ds : Int) + (line : Int)) ≤ s := by
        have e0 : (((n + 1 - 1) * ds + line : Nat) : Int)
            = (n : Int) * (ds : Int) + (line : Int) := by
          push_cast
          ring
        rw [e0] at hsep
        exact hsep
      cases r with
      | zero =>
          have haddr : d + ((0 : Nat) : Int) * (ds : Int) + (i : Int)
              = d + (i : Int) := by push_cast; ring
          have hrhs : s + ((0 : Nat) : Int) * (ss : Int) + (i : Int)
              = s + (i : Int) := by push_cast; ring
          rw [haddr, hrhs]
          show dma_worker_loop line ss ds n (s + (ss : Int)) (d + (ds : Int))
            (memcpy m d s line) (d + (i : Int)) = m (s + (i : Int))
          rw [dma_worker_loop_frame line ss ds n (s + (ss : Int)) (d + (ds : Int))
            (memcpy m d s line) (d + (i : Int)) ?frameh]
          case frameh =>
            intro q hq hc
            have hq0 : (0 : Int) ≤ (q : Int) * (ds : Int) := by positivity
            have := hc.1
            linarith
          simp only [memcpy]
          rw [if_pos ⟨by omega, by omega⟩]
          congr 1
          ring
      | succ q =>
          have hq : q < n := by omega
          have hn : 1 ≤ n := by omega
          have haddr : d + ((q + 1 : Nat) : Int) * (ds : Int) + (i : Int)
              = (d + (ds : Int)) + (q : Int) * (ds : Int) + (i : Int) := by
            push_cast; ring
          have hrhs : s + ((q + 1 : Nat) : Int) * (ss : Int) + (i : Int)
              = (s + (ss : Int)) + (q : Int) * (ss : Int) + (i : Int) := by
            push_cast; ring
          rw [haddr, hrhs]
          have hsepn : (d + (ds : Int)) + (((n - 1) * ds + line : Nat) : Int)
              ≤ s + (ss : Int) := by
            have e1 : (((n - 1) * ds + line : Nat) : Int)
                = ((n : Int) - 1) * (ds : Int) + (line : Int) := by
              push_cast [Nat.cast_sub hn]
              ring
            rw [e1]
            have hss : (0 : Int) ≤ (ss : Int) := by positivity
            nlinarith [hsep']
          show dma_worker_loop line ss ds n (s + (ss : Int)) (d + (ds : Int))
            (memcpy m d s line)
            ((d + (ds : Int)) + (q : Int) * (ds : Int) + (i : Int))
            = m ((s + (ss : Int)) + (q : Int) * (ss : Int) + (i : Int))
          rw [ih (s + (ss : Int)) (d + (ds : Int)) (memcpy m d s line) q i hq hi hsepn]
          simp only [memcpy]
          rw [if_neg ?hout]
          case hout =>
            intro hc
            have h1 : (0 : Int) ≤ (q : Int) * (ss : Int) := by positivity
            have h2 : (0 : Int) ≤ (ss : Int) := by positivity
            have h3 : (0 : Int) ≤ (n : Int) * (ds : Int) := by positivity
            have h4 : (0 : Int) ≤ (i : Int) := by positivity
            have := hc.2
            linarith

/-- Every address the copy loop changes lies inside one of the
destination rows. -/
theorem dma_worker_loop_writes (line ss ds : Nat) :
    ∀ (k : Nat) (s d : Int) (m : Mem) (a : Int),
      dma_worker_loop line ss ds k s d m a ≠ m a →
      ∃ r : Nat, r < k ∧ d + (r : Int) * (ds : Int) ≤ a ∧
        a < d + (r : Int) * (ds : Int) + (line : Int) := by
  intro k s d m a hne
  by_contra hno
  push_neg at hno
  exact hne (dma_worker_loop_frame line ss ds k s d m a
    (fun r hr hc => absurd hc.2 (not_lt.mpr (hno r hr hc.1))))

/-- C3: `dma_worker` performs exactly `height` row copies of
`width * bpp` bytes each -- byte `i` of destination row `r` (rows
`dst_stride` bytes apart) receives byte `i` of source row `r` (rows
`src_stride` bytes apart) -- and writes no byte outside
`[dst, dst + (height-1)*dst_stride + width*bpp)`.  The hypotheses state
the caller contract: at least one row, no `uint32_t` overflow of the
row length, rows no wider than the destination stride, and source and
destination buffers disjoint. -/
theorem dma_worker_exact (m : Mem) (cfg : dma_2d_config_t)
    (hh : 1 ≤ cfg.height)
    (hw : cfg.width * cfg.bpp < 4294967296)
    (hstride : cfg.width * cfg.bpp ≤ cfg.dst_stride)
    (hsep : cfg.dst
        + (((cfg.height - 1) * cfg.dst_stride + cfg.width * cfg.bpp : Nat) : Int)
        ≤ cfg.src) :
    (∀ r i : Nat, r < cfg.height → i < cfg.width * cfg.bpp →
      dma_worker cfg m
          (cfg.dst + (r : Int) * (cfg.dst_stride : Int) + (i : Int))
        = m (cfg.src + (r : Int) * (cfg.src_stride : Int) + (i : Int))) ∧
    (∀ a : Int, dma_worker cfg m a ≠ m a →
      cfg.dst ≤ a ∧
      a < cfg.dst
        + (((cfg.height - 1) * cfg.dst_stride + cfg.width * cfg.bpp : Nat) : Int)) := by
  have hline : u32n (cfg.width * cfg.bpp) = cfg.width * cfg.bpp :=
    Nat.mod_eq_of_lt hw
  constructor
  · intro r i hr hi
    unfold dma_worker
    rw [hline]
    exact dma_worker_loop_row (cfg.width * cfg.bpp) cfg.src_stride cfg.dst_stride
      hstride cfg.height cfg.src cfg.dst m r i hr hi hsep
  · intro a hne
    unfold dma_worker at hne
    rw [hline] at hne
    obtain ⟨r, hrk, h1, h2⟩ :=
      dma_worker_loop_writes (cfg.width * cfg.bpp) cfg.src_stride cfg.dst_stride
        cfg.height cfg.src cfg.dst m a hne
    have hrle : (r : Int) ≤ ((cfg.height - 1 : Nat) : Int) := by
      have : r ≤ cfg.height - 1 := by omega
      exact_mod_cast this
    have hmono : (r : Int) * (cfg.dst_stride : Int)
        ≤ ((cfg.height - 1 : Nat) : Int) * (cfg.dst_stride : Int) :=
      mul_le_mul_of_nonneg_right hrle (by positivity)
    constructor
    · have : (0 : Int) ≤ (r : Int) * (cfg.dst_stride : Int) := by positivity
      linarith
    · push_cast at h2 hmono ⊢
      linarith

/-- C3 witness: the spec scenario (width 100, height 50, bpp 4, source
stride 4096, destination stride 3840): the last byte of the last row is
copied from the matching source offset. -/
theorem dma_worker_exact_witness :
    dma_worker sampleCfg sampleMem
        (sampleCfg.dst + ((49 : Nat) : Int) * (sampleCfg.dst_stride : Int)
          + ((399 : Nat) : Int))
      = sampleMem (sampleCfg.src + ((49 : Nat) : Int) * (sampleCfg.src_stride : Int)
          + ((399 : Nat) : Int)) :=
  (dma_worker_exact sampleMem sampleCfg (by decide) (by decide) (by decide)
    (by decide)).1 49 399 (by decide) (by decide)

/-- Acquire counts are additive over trace concatenation. -/
theorem acqCount_append (s t : List (Bool × res)) (r : res) :
    acqCount (s ++ t) r = acqCount s r + acqCount t r := by
  simp [acqCount, List.countP_append]

/-- Release counts are additive over trace concatenation. -/
theorem relCount_append (s t : List (Bool × res)) (r : res) :
    relCount (s ++ t) r = relCount s r + relCount t r := by
  simp [relCount, List.countP_append]

/-- Unfolding an acquire count over a cons cell. -/
theorem acqCount_cons (b : Bool) (x : res) (t : List (Bool × res)) (r : res) :
    acqCount ((b, x) :: t) r
      = acqCount t r + (if b = true ∧ x = r then 1 else 0) := by
  simp [acqCount, List.countP_cons, Bool.and_eq_true, beq_iff_eq]

/-- Unfolding a release count over a cons cell. -/
theorem relCount_cons (b : Bool) (x : res) (t : List (Bool × res)) (r : res) :
    relCount ((b, x) :: t) r
      = relCount t r + (if b = false ∧ x = r then 1 else 0) := by
  simp [relCount, List.countP_cons, Bool.and_eq_true, beq_iff_eq]

/-- The empty trace acquires nothing. -/
theorem acqCount_nil (r : res) : acqCount [] r = 0 := rfl

/-- The empty trace releases nothing. -/
theorem relCount_nil (r : res) : relCount [] r = 0 := rfl

/-- An open immediately followed by a close is balanced. -/
theorem balanced_open_close (fd : res) (r : res) :
    acqCount [(true, fd), (false, fd)] r
      = relCount [(true, fd), (false, fd)] r := by
  simp [acqCount_cons, relCount_cons, acqCount_nil, relCount_nil]

/-- A failing `init_framebuffer` run releases exactly what it
acquired. -/
theorem fb_events_balanced (e : fb_env) (fd m : res)
    (h : (init_framebuffer e).ret < 0) (r : res) :
    acqCount (fb_events e fd m) r = relCount (fb_events e fd m) r := by
  rcases e with ⟨o, v, pk, ma, st, fl⟩
  cases o <;> cases v <;> cases pk <;> cases ma <;>
    first
      | exact rfl
      | exact balanced_open_close fd r
      | exact absurd h (by norm_num [init_framebuffer])

/-- A successful `init_framebuffer` run acquires the fd and the
mapping, and releases nothing. -/
theorem fb_events_success (e : fb_env) (fd m : res)
    (h : ¬ (init_framebuffer e).ret < 0) :
    fb_events e fd m = [(true, fd), (true, m)] := by
  rcases e with ⟨o, v, pk, ma, st, fl⟩
  cases o <;> cases v <;> cases pk <;> cases ma <;>
    first
      | rfl
      | exact (h (by norm_num [init_framebuffer])).elim

/-- C8: if any resource-acquisition step of `create_dualscreen_display`
fails (either framebuffer setup, either canvas allocation, or the
display creation), the function returns failure and its event trace
releases every resource exactly as often as it was acquired, so no
file descriptor, mapping or buffer is leaked. -/
theorem create_cleanup_on_failure (env : create_env) (r : res)
    (h : create_step_fails env) :
    (create_dualscreen_display env).1 = false ∧
    acqCount (create_dualscreen_display env).2 r
      = relCount (create_dualscreen_display env).2 r := by
  unfold create_dualscreen_display
  by_cases h0 : (init_framebuffer env.fb0).ret < 0
  · rw [if_pos h0]
    exact ⟨rfl, fb_events_balanced env.fb0 res.fdL res.mapL h0 r⟩
  · rw [if_neg h0]
    have e0 := fb_events_success env.fb0 res.fdL res.mapL h0
    by_cases h1 : (init_framebuffer env.fb1).ret < 0
    · rw [if_pos h1]
      refine ⟨rfl, ?_⟩
      have b1 := fb_events_balanced env.fb1 res.fdR res.mapR h1 r
      rw [e0, acqCount_append, acqCount_append, relCount_append, relCount_append, b1]
      cases r <;>
        simp [acqCount_cons, relCount_cons, acqCount_nil, relCount_nil] <;>
        omega
    · rw [if_neg h1]
      have e1 := fb_events_success env.fb1 res.fdR res.mapR h1
      by_cases hm1 : env.malloc1_ok = false
      · rw [if_pos hm1]
        refine ⟨rfl, ?_⟩
        rw [e0, e1]
        cases r <;> decide
      · rw [if_neg hm1]
        by_cases hm2 : env.malloc2_ok = false
        · rw [if_pos hm2]
          refine ⟨rfl, ?_⟩
          rw [e0, e1]
          cases r <;> decide
        · rw [if_neg hm2]
          by_cases hd : env.disp_ok = false
          · rw [if_pos hd]
            refine ⟨rfl, ?_⟩
            rw [e0, e1]
            cases r <;> decide
          · exfalso
            rcases h with h | h | h | h | h
            exacts [h0 h, h1 h, hm1 h, hm2 h, hd h]

/-- C8 witness: when the second framebuffer's `mmap` fails, creation
fails and the first framebuffer's fd (and every other resource) is
released as often as acquired. -/
theorem create_cleanup_on_failure_witness :
    (create_dualscreen_display sampleFailEnv).1 = false ∧
    acqCount (create_dualscreen_display sampleFailEnv).2 res.fdL
      = relCount (create_dualscreen_display sampleFailEnv).2 res.fdL :=
  create_cleanup_on_failure sampleFailEnv res.fdL (Or.inr (Or.inl (by decide)))

/-- C10: when `init_framebuffer` fails at the `mmap` step it returns -1
with the file descriptor closed, the caller's `mem` output parameter
left holding `MAP_FAILED` (it was written by the `mmap` assignment, so
it is not `NULL`), and the `stride`/`fblen` outputs unwritten; moreover
for every environment, `stride` or `fblen` is written only when the
function fully succeeds (returns 0). -/
theorem init_framebuffer_mmap_fail (env : fb_env)
    (h1 : env.open_ok = true) (h2 : env.vinfo_ok = true)
    (h3 : env.pinfo_ok = true) (h4 : env.mmap_addr = none) :
    init_framebuffer env =
      { ret := -1, fd_open := false, mem := some mem_ptr.map_failed,
        stride_out := none, fblen_out := none } ∧
    (∀ e : fb_env, ((init_framebuffer e).stride_out.isSome ∨
        (init_framebuffer e).fblen_out.isSome) → (init_framebuffer e).ret = 0) := by
  constructor
  · simp [init_framebuffer, h1, h2, h3, h4]
  · intro e he
    rcases e with ⟨o, v, pk, ma, st, fl⟩
    cases o <;> cases v <;> cases pk <;> cases ma <;>
      simp_all [init_framebuffer]

/-- C10 witness: a run whose `mmap` fails after both `ioctl`s
succeeded. -/
theorem init_framebuffer_mmap_fail_witness :
    init_framebuffer ⟨true, true, true, none, 3840, 2764800⟩ =
      { ret := -1, fd_open := false, mem := some mem_ptr.map_failed,
        stride_out := none, fblen_out := none } :=
  (init_framebuffer_mmap_fail ⟨true, true, true, none, 3840, 2764800⟩
    rfl rfl rfl rfl).1
